import Mathlib

/- Shallow embedding of the PhytronMCC2 Tango device server
(src/tangods_phytronmcc2/PhytronMCC2Axis.py and PhytronMCC2Ctrl.py):
the status-word decoder, the per-poll state derivation of
always_executed_hook, the parameter cache, the unit/sign handling and the
command send path, together with theorems checking the specified
properties against these definitions. -/

namespace PhytronMCC2

/-- Device states reachable by the axis device code (the relevant subset of
tango's DevState). -/
inductive DevState where
  | On
  | Moving
  | Alarm
  | Fault
  | Off
  deriving DecidableEq

/-- The not-acknowledged sentinel chr(0x15) shared by PhytronMCC2Axis.__NACK
and PhytronMCC2Ctrl.__NACK. -/
def NACK : String := "\x15"

/-- Length of the bare (unpadded) hexadecimal representation that Python
produces for n, computed with structural recursion on a fuel argument:
one digit for values below 16, otherwise one more digit than n / 16. -/
def hexLenAux : Nat → Nat → Nat
  | 0, _ => 1
  | fuel + 1, n => if n < 16 then 1 else hexLenAux fuel (n / 16) + 1

/-- Number of characters of f-string hex formatting of n without padding
(Python prints a single digit for 0). -/
def pyHexLen (n : Nat) : Nat := hexLenAux n n

/-- Digit list of the zero-padded hex string f-formatted from status with
ndigits requested digits, read least-significant digit first — exactly the
reversed string that PhytronMCC2Axis._decode_status iterates.  Entry i is
status / 16 ^ i % 16, and the list length is the maximum of the requested
width and the unpadded length, as Python zero-padding produces. -/
def hexDigitsRev (status ndigits : Nat) : List Nat :=
  (List.range (max ndigits (pyHexLen status))).map (fun i => status / 16 ^ i % 16)

/-- Expansion of one hex digit into four status bits, bit 0 first:
the list comprehension [(digit_num >> i) & 1 for i in range(4)]. -/
def nibbleBits (d : Nat) : List Nat :=
  (List.range 4).map (fun j => d / 2 ^ j % 2)

/-- PhytronMCC2Axis._decode_status: format the decimal status value as a
zero-padded hexadecimal string, then expand each digit, least-significant
first, into four bits (bit 0 first) and concatenate. -/
def decode_status (status ndigits : Nat) : List Nat :=
  (hexDigitsRev status ndigits).flatMap nibbleBits

theorem hexLenAux_le (fuel : Nat) :
    ∀ n d : Nat, 1 ≤ d → n < 16 ^ d → hexLenAux fuel n ≤ d := by
  induction fuel with
  | zero =>
    intro n d h1 _
    simpa [hexLenAux] using h1
  | succ fuel ih =>
    intro n d h1 h2
    by_cases hn : n < 16
    · simpa [hexLenAux, hn] using h1
    · have hd : 2 ≤ d := by
        rcases Nat.lt_or_ge d 2 with hlt | hge
        · exfalso
          have hd1 : d = 1 := by omega
          subst hd1
          simp at h2
          omega
        · exact hge
      have hdiv : n / 16 < 16 ^ (d - 1) := by
        apply Nat.div_lt_of_lt_mul
        have hpow : 16 ^ d = 16 * 16 ^ (d - 1) := by
          obtain ⟨e, rfl⟩ : ∃ e, d = e + 1 := ⟨d - 1, by omega⟩
          rw [Nat.add_sub_cancel, pow_succ, Nat.mul_comm]
        omega
      have := ih (n / 16) (d - 1) (by omega) hdiv
      simp only [hexLenAux, hn, if_false]
      omega

/-- Bit j of hex digit i of s is bit 4 * i + j of s, for j < 4. -/
theorem nibble_bit (s i j : Nat) (hj : j < 4) :
    s / 16 ^ i % 16 / 2 ^ j % 2 = s / 2 ^ (4 * i + j) % 2 := by
  have h16 : (16 : Nat) ^ i = 2 ^ (4 * i) := by
    rw [show (16 : Nat) = 2 ^ 4 from rfl, ← pow_mul]
  have hsplit : (16 : Nat) = 2 ^ j * 2 ^ (4 - j) := by
    have hj4 : j + (4 - j) = 4 := by omega
    rw [← pow_add, hj4]
    norm_num
  calc s / 16 ^ i % 16 / 2 ^ j % 2
      = s / 2 ^ (4 * i) % (2 ^ j * 2 ^ (4 - j)) / 2 ^ j % 2 := by
        rw [h16, ← hsplit]
    _ = s / 2 ^ (4 * i) / 2 ^ j % 2 ^ (4 - j) % 2 := by
        rw [Nat.mod_mul_right_div_self]
    _ = s / 2 ^ (4 * i) / 2 ^ j % 2 := by
        exact Nat.mod_mod_of_dvd _ (dvd_pow_self 2 (by omega))
    _ = s / 2 ^ (4 * i + j) % 2 := by
        rw [Nat.div_div_eq_div_mul, ← pow_add]

/-- Concatenating the 4-bit expansions of the first n hex digits of s yields
the first 4 * n binary digits of s. -/
theorem range_flatMap_nibble (s : Nat) :
    ∀ n : Nat, (List.range n).flatMap (fun i => nibbleBits (s / 16 ^ i % 16))
      = (List.range (4 * n)).map (fun k => s / 2 ^ k % 2) := by
  intro n
  induction n with
  | zero => rfl
  | succ n ih =>
    rw [List.range_succ, List.flatMap_append, ih]
    have h4 : 4 * (n + 1) = 4 * n + 4 := by ring
    rw [h4, List.range_add, List.map_append, List.map_map]
    congr 1
    simp only [List.flatMap_cons, List.flatMap_nil, List.append_nil]
    show nibbleBits (s / 16 ^ n % 16) = _
    have hr4 : List.range 4 = [0, 1, 2, 3] := rfl
    simp only [nibbleBits, hr4, List.map_cons, List.map_nil, Function.comp]
    rw [nibble_bit s n 0 (by omega), nibble_bit s n 1 (by omega),
      nibble_bit s n 2 (by omega), nibble_bit s n 3 (by omega)]

/-- For a positive requested width that bounds the status value, the decoder
returns exactly the binary expansion of the status value, bit k at index k. -/
theorem decode_status_eq_bits (s nd : Nat) (h1 : 1 ≤ nd) (h2 : s < 16 ^ nd) :
    decode_status s nd = (List.range (4 * nd)).map (fun k => s / 2 ^ k % 2) := by
  have hlen : pyHexLen s ≤ nd := hexLenAux_le s s nd h1 h2
  have hmax : max nd (pyHexLen s) = nd := Nat.max_eq_left hlen
  unfold decode_status hexDigitsRev
  rw [hmax, List.flatMap_map]
  exact range_flatMap_nibble s nd

/-- C4 (amended to positive widths): for every width W ≥ 1 and every status
value S with S < 16 ^ W, the decoder — a total function, hence deterministic —
returns exactly the nibble-major, bit-minor expansion of S: the ordered list
of the binary digits of S, bit k at index k, of length 4 * W. -/
theorem decode_status_nibble_expansion (s nd : Nat) (h1 : 1 ≤ nd)
    (h2 : s < 16 ^ nd) :
    decode_status s nd = (List.range (4 * nd)).map (fun k => s / 2 ^ k % 2) ∧
      (decode_status s nd).length = 4 * nd := by
  have h := decode_status_eq_bits s nd h1 h2
  refine ⟨h, ?_⟩
  rw [h, List.length_map, List.length_range]

/-- Witness for decode_status_nibble_expansion at S = 520, W = 7. -/
theorem decode_status_nibble_expansion_witness :
    decode_status 520 7 = (List.range (4 * 7)).map (fun k => 520 / 2 ^ k % 2) ∧
      (decode_status 520 7).length = 4 * 7 :=
  decode_status_nibble_expansion 520 7 (by norm_num) (by norm_num)

/-- C4 counterexample: width 0 is admitted by the claim (with S = 0 < 16 ^ 0),
but Python formats 0 as the one-digit string even when zero digits are
requested, so the decoder returns 4 flags instead of 4 * 0 = 0. -/
theorem decode_status_width_zero :
    (0 : Nat) < 16 ^ 0 ∧ (decode_status 0 0).length ≠ 4 * 0 := by decide

/-- The concrete decode of the status value 0x208 = 520 at width 7:
hex string 0000208, digits least-significant first 8, 0, 2, 0, 0, 0, 0,
hence flag 3 (from digit 8) and flag 9 (from digit 2) are set. -/
theorem decode_520 : decode_status 520 7 =
    [0, 0, 0, 1, 0, 0, 0, 0, 0, 1, 0, 0, 0, 0, 0, 0, 0, 0, 0, 0, 0, 0, 0, 0,
      0, 0, 0, 0] := by
  rw [decode_status_eq_bits 520 7 (by norm_num) (by norm_num)]
  decide

/-- Truthiness test the poll hook applies to a set of flag indices:
any(self._statusbits[n] for n in idxs), with a set bit meaning a nonzero
entry.  (The source indexes the list directly; the hook always decodes
width 7, so all indices it uses are in range and getD agrees with it.) -/
def anyBits (bits : List Nat) (idxs : List Nat) : Bool :=
  idxs.any (fun n => bits.getD n 0 != 0)

/-- PhytronMCC2Axis.always_executed_hook, state-derivation block: from the
fresh status bits, the cached movement-type parameter P01R and the state the
device held before the poll, compute the state after the poll.  The source
first sets On when a stands-still flag (3 or 19) is up, then runs a separate
if / elif / elif chain Moving → Alarm (gated by P01R > 0) → Fault that
overwrites that assignment. -/
def deriveState (bits : List Nat) (p01 : Int) (s : DevState) : DevState :=
  let s1 := if anyBits bits [3, 19] then DevState.On else s
  if anyBits bits [0, 16, 21, 22, 23] then DevState.Moving
  else if anyBits bits [4, 5, 6, 7, 8, 12] ∧ p01 > 0 then DevState.Alarm
  else if anyBits bits [1, 11, 13, 14, 15] then DevState.Fault
  else s1

/-- C5 counterexample: decoding 0x208 = 520 at width 7 does set flag 3, but
flag 9 is set as well, refuting the conjunct that every flag other than
index 3 equals 0. -/
theorem decode_status_520_flag9 :
    ¬((decode_status 520 7).getD 3 0 = 1 ∧
      ∀ k, k ≠ 3 → (decode_status 520 7).getD k 0 = 0) := by
  intro h
  have h9 := h.2 9 (by norm_num)
  rw [decode_520] at h9
  exact absurd h9 (by decide)

/-- C5 amended: raw status 0x208 = 520 decoded at width 7 sets flag 3 and
flag 9 and no others, and the state the hook derives from it is On, whatever
the movement-type parameter and the pre-poll state were. -/
theorem decode_status_520_state_on (p01 : Int) (s : DevState) :
    decode_status 520 7 =
      [0, 0, 0, 1, 0, 0, 0, 0, 0, 1, 0, 0, 0, 0, 0, 0, 0, 0, 0, 0, 0, 0, 0,
        0, 0, 0, 0, 0] ∧
    deriveState (decode_status 520 7) p01 s = DevState.On := by
  refine ⟨decode_520, ?_⟩
  rw [decode_520]
  simp [deriveState, anyBits]

/-- The fixed status description table _PHY_AXIS_STATUS_CODES. -/
def statusCodes : List String :=
  ["Power stage error",
   "Power stage under voltage",
   "Power stage overtemperature",
   "Power stage is actived",
   "limit– is activated (emergency stop)",
   "limit+ is activated",
   "Step failure",
   "Encoder error",
   "Motor stands still",
   "Reference point is driven and OK"]

/-- Description the hook appends for a set status bit n: when the axis is
inverted, the paired indices 4 ↔ 5 and 7 ↔ 8 pick the partner's label.
This is the value of the 10-entry table lookup where it is defined; the
faithful partial lookup, which raises IndexError beyond the table, is
statusLabelE below, and statusLabelE agrees with Except.ok of this function
on every in-table index. -/
def statusLabel (inverted : Bool) (n : Nat) : String :=
  if (n = 4 ∨ n = 7) ∧ inverted then statusCodes.getD (n + 1) ""
  else if (n = 5 ∨ n = 8) ∧ inverted then statusCodes.getD (n - 1) ""
  else statusCodes.getD n ""

/-- The enumerate loop of the hook over the status bits, from counter n on:
each set bit contributes its (inversion-aware) description. -/
def statusListAux (inverted : Bool) : Nat → List Nat → List String
  | _, [] => []
  | n, b :: rest =>
      (if b ≠ 0 then [statusLabel inverted n] else []) ++
        statusListAux inverted (n + 1) rest

/-- The status text entries of the hook's loop, on words whose composition
survives the table lookups; the faithful version raising IndexError on a
set bit beyond the table is statusListE below. -/
def statusList (bits : List Nat) (inverted : Bool) : List String :=
  statusListAux inverted 0 bits

/-- The generation's fixed swap table on flag indices: exchange the paired
entries 4 ↔ 5 (limit switches) and 7 ↔ 8. -/
def swapBits (bits : List Nat) : List Nat :=
  (((bits.set 4 (bits.getD 5 0)).set 5 (bits.getD 4 0)).set 7
      (bits.getD 8 0)).set 8 (bits.getD 7 0)

/-- From flag index 9 on no label is remapped, so the tail of the
composition does not depend on the inversion flag. -/
theorem statusListAux_high (rest : List Nat) :
    ∀ n, 9 ≤ n → statusListAux true n rest = statusListAux false n rest := by
  induction rest with
  | nil => intro n _; rfl
  | cons b tail ih =>
    intro n hn
    have h47 : ¬(n = 4 ∨ n = 7) := by omega
    have h58 : ¬(n = 5 ∨ n = 8) := by omega
    have hl : statusLabel true n = statusLabel false n := by
      simp [statusLabel, h47, h58]
    show (if b ≠ 0 then [statusLabel true n] else []) ++
        statusListAux true (n + 1) tail
      = (if b ≠ 0 then [statusLabel false n] else []) ++
        statusListAux false (n + 1) tail
    rw [hl, ih (n + 1) (by omega)]

/-- Exchanging two adjacent blocks of a concatenation is a permutation. -/
theorem perm_append_swap {α : Type} (x y t : List α) :
    (x ++ (y ++ t)).Perm (y ++ (x ++ t)) := by
  rw [← List.append_assoc, ← List.append_assoc]
  exact List.Perm.append_right t List.perm_append_comm

/-- The state-derivation block yields the same result on the index-swapped
word as on the raw word: every one of the four flag groups it tests either
contains both members of each swapped pair (the alarm group holds 4, 5, 7
and 8) or neither, so each group test is unchanged by the swap. -/
theorem deriveState_swap_invariant (b0 b1 b2 b3 b4 b5 b6 b7 b8 : Nat)
    (rest : List Nat) (p01 : Int) (s : DevState) :
    deriveState
        (swapBits (b0 :: b1 :: b2 :: b3 :: b4 :: b5 :: b6 :: b7 :: b8 :: rest))
        p01 s
      = deriveState (b0 :: b1 :: b2 :: b3 :: b4 :: b5 :: b6 :: b7 :: b8 :: rest)
          p01 s := by
  have hswap :
      swapBits (b0 :: b1 :: b2 :: b3 :: b4 :: b5 :: b6 :: b7 :: b8 :: rest)
        = b0 :: b1 :: b2 :: b3 :: b5 :: b4 :: b6 :: b8 :: b7 :: rest := rfl
  rw [hswap]
  have e1 : anyBits (b0 :: b1 :: b2 :: b3 :: b5 :: b4 :: b6 :: b8 :: b7 :: rest)
      [3, 19] = anyBits
        (b0 :: b1 :: b2 :: b3 :: b4 :: b5 :: b6 :: b7 :: b8 :: rest) [3, 19] := by
    simp [anyBits]
  have e2 : anyBits (b0 :: b1 :: b2 :: b3 :: b5 :: b4 :: b6 :: b8 :: b7 :: rest)
      [0, 16, 21, 22, 23] = anyBits
        (b0 :: b1 :: b2 :: b3 :: b4 :: b5 :: b6 :: b7 :: b8 :: rest)
        [0, 16, 21, 22, 23] := by
    simp [anyBits]
  have e3 : anyBits (b0 :: b1 :: b2 :: b3 :: b5 :: b4 :: b6 :: b8 :: b7 :: rest)
      [4, 5, 6, 7, 8, 12] = anyBits
        (b0 :: b1 :: b2 :: b3 :: b4 :: b5 :: b6 :: b7 :: b8 :: rest)
        [4, 5, 6, 7, 8, 12] := by
    simp [anyBits, Bool.or_comm, Bool.or_left_comm, Bool.or_assoc]
  have e4 : anyBits (b0 :: b1 :: b2 :: b3 :: b5 :: b4 :: b6 :: b8 :: b7 :: rest)
      [1, 11, 13, 14, 15] = anyBits
        (b0 :: b1 :: b2 :: b3 :: b4 :: b5 :: b6 :: b7 :: b8 :: rest)
        [1, 11, 13, 14, 15] := by
    simp [anyBits]
  unfold deriveState
  rw [e1, e2, e3, e4]

/-- The text entries composed with the inversion label swap equal, as a
multiset, the entries composed from the index-swapped word without
inversion; the two differ only in the order of the members of a pair when
both of its flags are set. -/
theorem statusList_swap_perm (b0 b1 b2 b3 b4 b5 b6 b7 b8 : Nat)
    (rest : List Nat) :
    (statusList (b0 :: b1 :: b2 :: b3 :: b4 :: b5 :: b6 :: b7 :: b8 :: rest)
        true).Perm
      (statusList
        (swapBits (b0 :: b1 :: b2 :: b3 :: b4 :: b5 :: b6 :: b7 :: b8 :: rest))
        false) := by
  have unfoldL :
        statusList (b0 :: b1 :: b2 :: b3 :: b4 :: b5 :: b6 :: b7 :: b8 :: rest)
            true
          = (if b0 ≠ 0 then ["Power stage error"] else []) ++
            ((if b1 ≠ 0 then ["Power stage under voltage"] else []) ++
            ((if b2 ≠ 0 then ["Power stage overtemperature"] else []) ++
            ((if b3 ≠ 0 then ["Power stage is actived"] else []) ++
            ((if b4 ≠ 0 then ["limit+ is activated"] else []) ++
            ((if b5 ≠ 0 then ["limit– is activated (emergency stop)"] else []) ++
            ((if b6 ≠ 0 then ["Step failure"] else []) ++
            ((if b7 ≠ 0 then ["Motor stands still"] else []) ++
            ((if b8 ≠ 0 then ["Encoder error"] else []) ++
              statusListAux true 9 rest)))))))) := rfl
  have unfoldR :
      statusList
          (swapBits (b0 :: b1 :: b2 :: b3 :: b4 :: b5 :: b6 :: b7 :: b8 :: rest))
          false
        = (if b0 ≠ 0 then ["Power stage error"] else []) ++
          ((if b1 ≠ 0 then ["Power stage under voltage"] else []) ++
          ((if b2 ≠ 0 then ["Power stage overtemperature"] else []) ++
          ((if b3 ≠ 0 then ["Power stage is actived"] else []) ++
          ((if b5 ≠ 0 then ["limit– is activated (emergency stop)"] else []) ++
          ((if b4 ≠ 0 then ["limit+ is activated"] else []) ++
          ((if b6 ≠ 0 then ["Step failure"] else []) ++
          ((if b8 ≠ 0 then ["Encoder error"] else []) ++
          ((if b7 ≠ 0 then ["Motor stands still"] else []) ++
            statusListAux false 9 rest)))))))) := rfl
  rw [unfoldL, unfoldR, statusListAux_high rest 9 (by norm_num)]
  refine List.Perm.append_left _ (List.Perm.append_left _
    (List.Perm.append_left _ (List.Perm.append_left _ ?_)))
  refine (perm_append_swap _ _ _).trans ?_
  refine List.Perm.append_left _ (List.Perm.append_left _ ?_)
  refine List.Perm.append_left _ ?_
  exact perm_append_swap _ _ _

/-- Per-axis state read by the attribute accessors that honour the inversion
flag: the cached raw position P20R, the cached raw backlash P25R, and the
decoded status bits from the last poll. -/
structure InvSt where
  inverted : Bool
  p20 : ℚ
  p25 : Int
  statusbits : List Nat

/-- PhytronMCC2Axis.read_position: the cached P20R value, negated when the
axis is inverted. -/
def read_position (s : InvSt) : ℚ :=
  if s.inverted then -s.p20 else s.p20

/-- PhytronMCC2Axis.read_backlash_compensation: the cached P25R value,
negated when the axis is inverted. -/
def read_backlash_compensation (s : InvSt) : Int :=
  if s.inverted then -s.p25 else s.p25

/-- PhytronMCC2Axis.read_inverted. -/
def read_inverted (s : InvSt) : Bool := s.inverted

/-- PhytronMCC2Axis.write_inverted: only the flag changes; no cached value
is touched. -/
def write_inverted (v : Bool) (s : InvSt) : InvSt := { s with inverted := v }

/-- Toggling the inversion flag: write the negation of the current value. -/
def toggle_inverted (s : InvSt) : InvSt :=
  write_inverted (!read_inverted s) s

/-- C7: toggling the inversion flag twice restores the original readings of
position, backlash compensation and the (inversion-aware) status flag text,
for every axis state. -/
theorem inversion_toggle_involutive (s : InvSt) :
    read_position (toggle_inverted (toggle_inverted s)) = read_position s ∧
    read_backlash_compensation (toggle_inverted (toggle_inverted s)) =
      read_backlash_compensation s ∧
    statusList (toggle_inverted (toggle_inverted s)).statusbits
        (toggle_inverted (toggle_inverted s)).inverted =
      statusList s.statusbits s.inverted := by
  have h : toggle_inverted (toggle_inverted s) = s := by
    simp [toggle_inverted, write_inverted, read_inverted]
  rw [h]
  exact ⟨rfl, rfl, rfl⟩

/-- The Python exceptions the device code can raise on the paths modelled
here: NameError (time is never imported, hook line 284), TypeError
(string + list in send_cmd line 524 when called with a command list),
UnboundLocalError (the local cmd read before assignment in _send_cmd line
506), IndexError (_PHY_AXIS_STATUS_CODES lookup beyond the 10-entry table)
and KeyError (a missing _all_parameters key). -/
inductive PyErr where
  | nameError
  | typeError
  | unboundLocal
  | indexError
  | keyError
  deriving DecidableEq

/-- Python _PHY_AXIS_STATUS_CODES[i]: the table has exactly 10 entries, so
any other index raises IndexError. -/
def statusCodes_get (i : Nat) : Except PyErr String :=
  if i < 10 then Except.ok (statusCodes.getD i "") else Except.error PyErr.indexError

/-- The label lookup of the hook's text loop with the faithful partial
table indexing: codes[n+1] for a set bit 4 or 7 on an inverted axis,
codes[n-1] for 5 or 8, codes[n] otherwise. -/
def statusLabelE (inverted : Bool) (n : Nat) : Except PyErr String :=
  if (n = 4 ∨ n = 7) ∧ inverted then statusCodes_get (n + 1)
  else if (n = 5 ∨ n = 8) ∧ inverted then statusCodes_get (n - 1)
  else statusCodes_get n

/-- The hook's enumerate loop from counter n on, with the faithful partial
lookup: it raises IndexError at the first set bit whose label index is
beyond the table, discarding the text accumulated so far (set_status is
only called after the loop). -/
def statusListAuxE (inverted : Bool) : Nat → List Nat → Except PyErr (List String)
  | _, [] => Except.ok []
  | n, b :: rest =>
      if b ≠ 0 then
        match statusLabelE inverted n with
        | .error e => .error e
        | .ok lab =>
            match statusListAuxE inverted (n + 1) rest with
            | .error e => .error e
            | .ok labs => .ok (lab :: labs)
      else statusListAuxE inverted (n + 1) rest

/-- The status-text composition of the hook's loop with the faithful
IndexError behaviour. -/
def statusListE (bits : List Nat) (inverted : Bool) : Except PyErr (List String) :=
  statusListAuxE inverted 0 bits

/-- One cons step of the loop preserves agreement between the partial
composition and the total one whenever the label lookup at this counter is
in-table. -/
theorem statusListAuxE_cons_ok (inv : Bool) (n b : Nat) (rest : List Nat)
    (hl : statusLabelE inv n = Except.ok (statusLabel inv n))
    (hr : statusListAuxE inv (n + 1) rest
      = Except.ok (statusListAux inv (n + 1) rest)) :
    statusListAuxE inv n (b :: rest)
      = Except.ok (statusListAux inv n (b :: rest)) := by
  by_cases hb : b ≠ 0 <;> simp [statusListAuxE, statusListAux, hb, hl, hr]

/-- The observable state of one axis device: the Tango device state, the
inversion flag, the _all_parameters cache (values as integers; the
string-to-int parsing of cached values is elided), the _last_status_query
timestamp and the list of commands that reached the controller device's
write_read, i.e. the transport exchanges. -/
structure Axis where
  devState : DevState
  inverted : Bool
  allParameters : Nat → Option Int
  lastStatusQuery : ℚ
  sent : List String

/-- PhytronMCC2Ctrl.write_read as seen from the axis device: one transport
exchange, recorded in sent.  No execution path of the axis device reaches
it: both branches that lead to it raise first. -/
def write_read (a : Axis) (cmd : String) : Axis :=
  { a with sent := a.sent ++ [cmd] }

/-- Line 506 of _send_cmd: cmd = str(self.Address) + cmd.  The right-hand
cmd is a local variable that has never been assigned — the parameter is
named cmd_str — so the name load raises UnboundLocalError whatever the
command was. -/
def address_plus_cmd (_cmd_str : String) : Except PyErr String :=
  Except.error PyErr.unboundLocal

/-- PhytronMCC2Axis._send_cmd on the single-command string every caller
passes: it raises UnboundLocalError at line 506 before ctrl.write_read, so
the exchange and the NACK handling of lines 507-514 (NACK reply → Fault
state and empty-string result) are dead code, mirrored here in the
unreachable branch; reply stands for what write_read would have returned.
The isinstance-list branch (lines 500-504) is dead as well: no caller
passes a list to _send_cmd. -/
def send_cmd_raw (cmd_str reply : String) (a : Axis) : Except PyErr (String × Axis) :=
  match address_plus_cmd cmd_str with
  | .error e => .error e
  | .ok cmd =>
      let a1 := write_read a cmd
      if reply = NACK then .ok ("", { a1 with devState := DevState.Fault })
      else .ok (reply, a1)

/-- The send_cmd Tango command (lines 522-524) called with a string: prefix
the axis name and delegate to _send_cmd — which always raises. -/
def send_cmd (axisName cmd reply : String) (a : Axis) : Except PyErr (String × Axis) :=
  send_cmd_raw (axisName ++ cmd) reply a

/-- send_cmd called with a command list (always_executed_hook line 286 and
read_all_parameters line 594): line 524 evaluates
str(self.__Axis_Name) + cmd with cmd a list, and string + list raises
TypeError before _send_cmd is entered, so a batched call always raises and
never reaches the transport. -/
def send_cmd_batch (_cmds : List String) : PyErr := PyErr.typeError

/-- Line 284: now = time.time().  The module imports only tango, sys and
enum — never time — so the name lookup itself raises NameError on every
invocation of the hook. -/
def time_time : Except PyErr ℚ := Except.error PyErr.nameError

/-- PhytronMCC2Axis.always_executed_hook: it dies at its first statement
with NameError; past that (unreachable) the staleness gate would issue the
batched exchange send_cmd(["SE", "P20R"]), which itself raises TypeError
before the transport.  The result pairs the axis state after the call with
the exception raised, if any.  The decode, status-text, error-reset and
state-derivation blocks of lines 287-318 are dead code; they are modelled by
the pure mappings decode_status, statusListE / statusList and deriveState
for the claims that examine them. -/
def always_executed_hook (timeOut : ℚ) (a : Axis) : Axis × Option PyErr :=
  match time_time with
  | .error e => (a, some e)
  | .ok now =>
      if now - a.lastStatusQuery > timeOut then
        (a, some (send_cmd_batch ["SE", "P20R"]))
      else (a, none)

/-- PhytronMCC2Axis.write_position (lines 357-365): negate the set-point on
inversion, send A<value> — the send raises UnboundLocalError before the
controller is contacted — and, in the unreachable continuation, set Moving
whenever the answer differs from the NACK sentinel (the last_position
memorisation is elided; the %.10f decimal formatting is irrelevant because
the send raises before the command string is used).  On the raise the
exception propagates and the axis is left exactly as it was. -/
def write_position (value : ℚ) (reply : String) (a : Axis) : Axis × Option PyErr :=
  let v := if a.inverted then -value else value
  match send_cmd "X" ("A" ++ toString v) reply a with
  | .error e => (a, some e)
  | .ok (ans, a1) =>
      if ans ≠ NACK then ({ a1 with devState := DevState.Moving }, none)
      else (a1, none)

/-- The parameter numbers of read_all_parameters: range(1, 49),
i.e. P01R .. P48R. -/
def paramIds : List Nat := List.range' 1 48

/-- The read command P<p>R with the "P{:02d}R" zero padding. -/
def fmt_param_read (p : Nat) : String :=
  "P" ++ (if p < 10 then "0" else "") ++ toString p ++ "R"

/-- A set command P<pid>S<value> as the decorated setters format it. -/
def fmt_param_set (pid : Nat) (v : Int) : String :=
  "P" ++ (if pid < 10 then "0" else "") ++ toString pid ++ "S" ++ toString v

/-- PhytronMCC2Axis.read_all_parameters (lines 585-597): the cache wipe
self._all_parameters = dict() of line 587 executes, then the batched
self.send_cmd(cmd_list) of line 594 raises TypeError before any exchange —
the parse loop of lines 596-597 is dead, the cache stays empty and the
exception propagates. -/
def read_all_parameters (a : Axis) : Axis × Option PyErr :=
  let a1 := { a with allParameters := fun _ => none }
  (a1, some (send_cmd_batch (paramIds.map fmt_param_read)))

/-- The update_parameters decorator applied to a setter whose body sends
P<pid>S<value>: the body's single-command send raises UnboundLocalError, so
the decorator's read_all_parameters call — and with it any refresh — is
never reached (mirrored in the unreachable branch). -/
def update_parameters (pid : Nat) (v : Int) (reply : String) (a : Axis) :
    Axis × Option PyErr :=
  match send_cmd "X" (fmt_param_set pid v) reply a with
  | .error e => (a, some e)
  | .ok (_ans, a1) => read_all_parameters a1

/-- PhytronMCC2Axis.read_acceleration: int(self._all_parameters["P15R"]) — a
missing key raises KeyError. -/
def read_acceleration (a : Axis) : Except PyErr Int :=
  match a.allParameters 15 with
  | none => Except.error PyErr.keyError
  | some v => Except.ok v

/-- The value write_backlash_compensation formats into its P25S<value>
command (lines 456-459): the user value, negated when the axis is inverted;
the steps-per-unit factor is not consulted. -/
def backlash_command_value (_spu : ℚ) (inverted : Bool) (v : Int) : Int :=
  if inverted then -v else v

/-- PhytronMCC2Axis.write_backlash_compensation, update_parameters-wrapped:
format P25S<value> and send — the send raises UnboundLocalError before the
controller sees the command, so nothing is stored and the decorator's
refresh is never reached. -/
def write_backlash_compensation (spu : ℚ) (v : Int) (reply : String) (a : Axis) :
    Axis × Option PyErr :=
  match send_cmd "X" ("P25S" ++ toString (backlash_command_value spu a.inverted v))
      reply a with
  | .error e => (a, some e)
  | .ok (_ans, a1) => read_all_parameters a1

/-- PhytronMCC2Axis.stop (lines 569-572): send S, then set On — but the send
raises UnboundLocalError first, the exception propagates, and the
set_state(ON) of line 572 never executes: the axis is left as it was. -/
def stop (reply : String) (a : Axis) : Axis × Option PyErr :=
  match send_cmd "X" "S" reply a with
  | .error e => (a, some e)
  | .ok (_ans, a1) => ({ a1 with devState := DevState.On }, none)

/-- PhytronMCC2Axis.abort (lines 574-577): like stop, with SN; line 577's
set_state(ON) is equally unreachable. -/
def abort (reply : String) (a : Axis) : Axis × Option PyErr :=
  match send_cmd "X" "SN" reply a with
  | .error e => (a, some e)
  | .ok (_ans, a1) => ({ a1 with devState := DevState.On }, none)

/-- A freshly initialised axis used as concrete input: state On, not
inverted, empty cache, no exchanges yet. -/
def axisFresh : Axis :=
  { devState := DevState.On, inverted := false,
    allParameters := fun _ => none, lastStatusQuery := 0, sent := [] }

/-- A concrete axis whose device state is Moving. -/
def axisMoving : Axis :=
  { devState := DevState.Moving, inverted := false,
    allParameters := fun _ => none, lastStatusQuery := 0, sent := [] }

/-- C2: a position write the controller would answer with the NACK sentinel
leaves the cached P20R entry and the device state untouched — the call
raises UnboundLocalError inside _send_cmd before the controller is even
contacted, so the state is never set to Moving — and the send path returns
no value for any reply whatsoever, so the result of a NACKed command can
never be confused with a legitimate empty payload value. -/
theorem write_position_never_reaches_controller (value : ℚ) (a : Axis) :
    write_position value NACK a = (a, some PyErr.unboundLocal) ∧
    (write_position value NACK a).1.devState = a.devState ∧
    (write_position value NACK a).1.allParameters 20 = a.allParameters 20 ∧
    (∀ (cmd reply : String) (b : Axis) (res : String × Axis),
      send_cmd "X" cmd reply b ≠ Except.ok res) := by
  refine ⟨rfl, rfl, rfl, ?_⟩
  intro cmd reply b res h
  simp [send_cmd, send_cmd_raw, address_plus_cmd] at h

/-- C3: no parameter write ever triggers a refresh, of a group or of the
full set: the decorated setter's own send raises UnboundLocalError before
any exchange, leaving controller, cache and state untouched and never
reaching the decorator's read_all_parameters; and a direct
read_all_parameters call wipes the cache, issues no exchange, raises
TypeError, and leaves every following cached read failing with KeyError. -/
theorem parameter_write_never_refreshes (pid : Nat) (v : Int) (reply : String)
    (a : Axis) :
    update_parameters pid v reply a = (a, some PyErr.unboundLocal) ∧
    (read_all_parameters a).2 = some PyErr.typeError ∧
    (read_all_parameters a).1.sent = a.sent ∧
    (∀ p, (read_all_parameters a).1.allParameters p = none) ∧
    read_acceleration (read_all_parameters a).1 = Except.error PyErr.keyError := by
  exact ⟨rfl, rfl, rfl, fun p => rfl, rfl⟩

/-- C6: a poll never causes a transport exchange: every invocation of
always_executed_hook raises NameError at its first statement (time is never
imported) and leaves the axis — in particular the exchange list — exactly as
it was, so a pair of polls causes zero exchanges, not one or two; the
concrete conjunct evaluates two successive polls of a fresh axis. -/
theorem poll_never_exchanges (timeOut : ℚ) (a : Axis) :
    always_executed_hook timeOut a = (a, some PyErr.nameError) ∧
    (always_executed_hook timeOut a).1.sent = a.sent ∧
    (always_executed_hook (1 / 5)
        (always_executed_hook (1 / 5) axisFresh).1).1.sent.length = 0 := by
  exact ⟨rfl, rfl, rfl⟩

/-- C8 counterexample: writing backlash 120 in user units with
steps-per-unit 2.0 and the inversion flag clear stores nothing on the
controller — the call raises UnboundLocalError with the axis, including its
empty exchange list, unchanged — and the value it had formatted into the
command is 120, not −240. -/
theorem write_backlash_stores_nothing :
    write_backlash_compensation 2 120 "" axisFresh
      = (axisFresh, some PyErr.unboundLocal) ∧
    backlash_command_value 2 false 120 = 120 ∧ ((120 : Int) ≠ -240) := by
  refine ⟨rfl, rfl, ?_⟩
  decide

/-- C8 amended: the backlash write formats the user value into P25S<value>,
negated exactly when the inversion flag is set and independent of the
steps-per-unit factor, and the send then raises UnboundLocalError before the
controller sees the command: no exchange occurs and nothing is stored. -/
theorem write_backlash_crash_and_value (spu : ℚ) (v : Int) (reply : String)
    (a : Axis) :
    write_backlash_compensation spu v reply a = (a, some PyErr.unboundLocal) ∧
    (write_backlash_compensation spu v reply a).1.sent = a.sent ∧
    backlash_command_value spu false v = v ∧
    backlash_command_value spu true v = -v := by
  exact ⟨rfl, rfl, rfl, rfl⟩

/-- C10: stop and abort raise UnboundLocalError inside the send path before
any reply is read; the exception propagates, the unconditional
set_state(ON) after the send never executes, and the device state is left
exactly as it was — concretely, a Moving axis stays Moving, not On. -/
theorem stop_abort_crash_leaves_state (reply : String) (a : Axis) :
    stop reply a = (a, some PyErr.unboundLocal) ∧
    abort reply a = (a, some PyErr.unboundLocal) ∧
    (stop reply a).1.devState = a.devState ∧
    (stop reply axisMoving).1.devState = DevState.Moving ∧
    DevState.Moving ≠ DevState.On := by
  refine ⟨rfl, rfl, rfl, rfl, ?_⟩
  decide

/-- C1 counterexample: the claim fails twice at this input.  A poll of a
fresh axis raises NameError and derives no state at all; and the
state-derivation block itself, given the decoded word of status 9 — where
both the stands-still flag 3 and the movement flag 0 are set, two different
priority classes, both within the label table — yields Moving, although the
claimed order puts stands-still → On above the movement flags. -/
theorem poll_raises_and_block_overrides_on :
    always_executed_hook (1 / 5) axisFresh = (axisFresh, some PyErr.nameError) ∧
    anyBits (decode_status 9 7) [3, 19] = true ∧
    anyBits (decode_status 9 7) [0, 16, 21, 22, 23] = true ∧
    deriveState (decode_status 9 7) 1 DevState.Fault = DevState.Moving ∧
    DevState.Moving ≠ DevState.On := by
  refine ⟨rfl, ?_⟩
  rw [decode_status_eq_bits 9 7 (by norm_num) (by norm_num)]
  decide

/-- C1 amended: no poll ever derives a state — every invocation of
always_executed_hook raises NameError before the status query, so no
priority-class transition and no error reset ever occurs in a poll; a word
with the limit-switch-error flag 12 set would crash the text loop with
IndexError before the reset call.  In the state-derivation block itself,
on the words whose set flags all lie below the 10-entry label table (the
only words the preceding text loop could survive): the
Moving → Alarm (gated by movement type > 0) → Fault chain respects its
internal priority — a later condition never fires once an earlier one
holds — while the stands-still → On assignment, made before that chain,
survives only when no chain condition holds. -/
theorem poll_dead_and_block_chain_priority (timeOut : ℚ) (a : Axis)
    (bits : List Nat) (p01 : Int) (s : DevState)
    (hlow : ∀ i, 10 ≤ i → bits.getD i 0 = 0) :
    always_executed_hook timeOut a = (a, some PyErr.nameError) ∧
    statusListE (decode_status 4096 7) false = Except.error PyErr.indexError ∧
    (bits.getD 0 0 ≠ 0 → deriveState bits p01 s = DevState.Moving) ∧
    (bits.getD 0 0 = 0 → anyBits bits [4, 5, 6, 7, 8] = true → p01 > 0 →
      deriveState bits p01 s = DevState.Alarm) ∧
    (bits.getD 0 0 = 0 → ¬(anyBits bits [4, 5, 6, 7, 8] = true ∧ p01 > 0) →
      bits.getD 1 0 ≠ 0 → deriveState bits p01 s = DevState.Fault) ∧
    (bits.getD 0 0 = 0 → ¬(anyBits bits [4, 5, 6, 7, 8] = true ∧ p01 > 0) →
      bits.getD 1 0 = 0 → bits.getD 3 0 ≠ 0 →
      deriveState bits p01 s = DevState.On) := by
  have h11 : bits[11]?.getD 0 = 0 := by simpa using hlow 11 (by norm_num)
  have h12 : bits[12]?.getD 0 = 0 := by simpa using hlow 12 (by norm_num)
  have h13 : bits[13]?.getD 0 = 0 := by simpa using hlow 13 (by norm_num)
  have h14 : bits[14]?.getD 0 = 0 := by simpa using hlow 14 (by norm_num)
  have h15 : bits[15]?.getD 0 = 0 := by simpa using hlow 15 (by norm_num)
  have h16 : bits[16]?.getD 0 = 0 := by simpa using hlow 16 (by norm_num)
  have h19 : bits[19]?.getD 0 = 0 := by simpa using hlow 19 (by norm_num)
  have h21 : bits[21]?.getD 0 = 0 := by simpa using hlow 21 (by norm_num)
  have h22 : bits[22]?.getD 0 = 0 := by simpa using hlow 22 (by norm_num)
  have h23 : bits[23]?.getD 0 = 0 := by simpa using hlow 23 (by norm_num)
  have e_alarm : anyBits bits [4, 5, 6, 7, 8, 12]
      = anyBits bits [4, 5, 6, 7, 8] := by
    simp [anyBits, h12]
  have hd12 : decode_status 4096 7
      = [0, 0, 0, 0, 0, 0, 0, 0, 0, 0, 0, 0, 1, 0, 0, 0, 0, 0, 0, 0, 0, 0,
         0, 0, 0, 0, 0, 0] := by
    rw [decode_status_eq_bits 4096 7 (by norm_num) (by norm_num)]
    decide
  refine ⟨rfl, by rw [hd12]; rfl, ?_, ?_, ?_, ?_⟩
  · intro h0
    have h0' : ¬(bits[0]?.getD 0 = 0) := by simpa using h0
    unfold deriveState
    have e_mov : anyBits bits [0, 16, 21, 22, 23] = true := by
      simp [anyBits, h16, h21, h22, h23, h0']
    rw [e_mov]
    simp
  · intro h0 hA hp
    have h0' : bits[0]?.getD 0 = 0 := by simpa using h0
    unfold deriveState
    have e_mov : anyBits bits [0, 16, 21, 22, 23] = false := by
      simp [anyBits, h16, h21, h22, h23, h0']
    rw [e_mov, e_alarm, hA]
    simp [hp]
  · intro h0 hA h1
    have h0' : bits[0]?.getD 0 = 0 := by simpa using h0
    have h1' : ¬(bits[1]?.getD 0 = 0) := by simpa using h1
    unfold deriveState
    have e_mov : anyBits bits [0, 16, 21, 22, 23] = false := by
      simp [anyBits, h16, h21, h22, h23, h0']
    have e_fault : anyBits bits [1, 11, 13, 14, 15] = true := by
      simp [anyBits, h11, h13, h14, h15, h1']
    have hA' : ¬(anyBits bits [4, 5, 6, 7, 8] = true ∧ p01 > 0) := by
      intro hc
      exact hA ⟨hc.1, hc.2⟩
    simp only [e_mov, e_alarm, e_fault]
    rw [if_neg hA']
    simp
  · intro h0 hA h1 h3
    have h0' : bits[0]?.getD 0 = 0 := by simpa using h0
    have h1' : bits[1]?.getD 0 = 0 := by simpa using h1
    have h3' : ¬(bits[3]?.getD 0 = 0) := by simpa using h3
    unfold deriveState
    have e_mov : anyBits bits [0, 16, 21, 22, 23] = false := by
      simp [anyBits, h16, h21, h22, h23, h0']
    have e_fault : anyBits bits [1, 11, 13, 14, 15] = false := by
      simp [anyBits, h11, h13, h14, h15, h1']
    have e_on : anyBits bits [3, 19] = true := by
      simp [anyBits, h19, h3']
    have hA' : ¬(anyBits bits [4, 5, 6, 7, 8] = true ∧ p01 > 0) := by
      intro hc
      exact hA ⟨hc.1, hc.2⟩
    simp only [e_mov, e_alarm, e_fault, e_on]
    rw [if_neg hA']
    simp

/-- Witness for poll_dead_and_block_chain_priority: the word with only the
in-table movement flag 0 set derives Moving. -/
theorem poll_dead_and_block_chain_priority_witness :
    deriveState [1] 1 DevState.Fault = DevState.Moving :=
  (poll_dead_and_block_chain_priority (1 / 5) axisFresh [1] 1 DevState.Fault
      (fun i hi => List.getD_eq_default _ _ (by simp; omega))).2.2.1
    (by decide)

/-- C9 counterexample: a word with both limit flags 4 and 5 set (status
0x30 = 48, entirely within the label table, and fixed by the swap table
since both pair members are set).  Composing its text under inversion, as
the code does with the label substitution, yields the labels in the order
limit+, limit– — while composing the text of the index-swapped word without
inversion, as the claim orders, yields limit–, limit+: the two compositions
differ, so the indices are not swapped before the status text is
composed. -/
theorem inversion_label_swap_order_differs :
    statusListE (decode_status 48 7) true
      = Except.ok ["limit+ is activated",
          "limit– is activated (emergency stop)"] ∧
    statusListE (swapBits (decode_status 48 7)) false
      = Except.ok ["limit– is activated (emergency stop)",
          "limit+ is activated"] ∧
    (["limit+ is activated", "limit– is activated (emergency stop)"]
        : List String)
      ≠ ["limit– is activated (emergency stop)", "limit+ is activated"] := by
  have hd : decode_status 48 7
      = [0, 0, 0, 0, 1, 1, 0, 0, 0, 0, 0, 0, 0, 0, 0, 0, 0, 0, 0, 0, 0, 0,
         0, 0, 0, 0, 0, 0] := by
    rw [decode_status_eq_bits 48 7 (by norm_num) (by norm_num)]
    decide
  rw [hd]
  refine ⟨rfl, rfl, ?_⟩
  decide

/-- C9 amended: the text loop substitutes the partner label of the fixed
pairs 4 ↔ 5 and 7 ↔ 8 for each set bit of an inverted axis while composing
in the original bit order, so on words whose set flags all lie in the label
table the composition succeeds and equals, as a multiset, the composition
of the index-swapped word without inversion; no index swap is applied
before the state derivation, whose outcome is nevertheless invariant under
the swap table; a set flag beyond the table makes the text loop raise
IndexError; and with the inversion flag clear every bit keeps its own table
lookup — no labels are swapped. -/
theorem inversion_swap_label_semantics
    (b0 b1 b2 b3 b4 b5 b6 b7 b8 b9 : Nat) (rest : List Nat) (p01 : Int)
    (s : DevState) :
    deriveState
        (swapBits (b0 :: b1 :: b2 :: b3 :: b4 :: b5 :: b6 :: b7 :: b8 :: rest))
        p01 s
      = deriveState (b0 :: b1 :: b2 :: b3 :: b4 :: b5 :: b6 :: b7 :: b8 :: rest)
          p01 s ∧
    statusListE
        (b0 :: b1 :: b2 :: b3 :: b4 :: b5 :: b6 :: b7 :: b8 :: b9 ::
          List.replicate 18 0) true
      = Except.ok
          (statusList
            (b0 :: b1 :: b2 :: b3 :: b4 :: b5 :: b6 :: b7 :: b8 :: b9 ::
              List.replicate 18 0) true) ∧
    (statusList
        (b0 :: b1 :: b2 :: b3 :: b4 :: b5 :: b6 :: b7 :: b8 :: b9 ::
          List.replicate 18 0) true).Perm
      (statusList
        (swapBits
          (b0 :: b1 :: b2 :: b3 :: b4 :: b5 :: b6 :: b7 :: b8 :: b9 ::
            List.replicate 18 0)) false) ∧
    statusListE (decode_status 2097152 7) false
      = Except.error PyErr.indexError ∧
    (∀ n, statusLabelE false n = statusCodes_get n) := by
  refine ⟨deriveState_swap_invariant b0 b1 b2 b3 b4 b5 b6 b7 b8 rest p01 s,
    ?_, ?_, ?_, ?_⟩
  · exact statusListAuxE_cons_ok true 0 b0 _ rfl
      (statusListAuxE_cons_ok true 1 b1 _ rfl
      (statusListAuxE_cons_ok true 2 b2 _ rfl
      (statusListAuxE_cons_ok true 3 b3 _ rfl
      (statusListAuxE_cons_ok true 4 b4 _ rfl
      (statusListAuxE_cons_ok true 5 b5 _ rfl
      (statusListAuxE_cons_ok true 6 b6 _ rfl
      (statusListAuxE_cons_ok true 7 b7 _ rfl
      (statusListAuxE_cons_ok true 8 b8 _ rfl
      (statusListAuxE_cons_ok true 9 b9 _ rfl rfl)))))))))
  · exact statusList_swap_perm b0 b1 b2 b3 b4 b5 b6 b7 b8
      (b9 :: List.replicate 18 0)
  · have hd : decode_status 2097152 7
        = [0, 0, 0, 0, 0, 0, 0, 0, 0, 0, 0, 0, 0, 0, 0, 0, 0, 0, 0, 0, 0, 1,
           0, 0, 0, 0, 0, 0] := by
      rw [decode_status_eq_bits 2097152 7 (by norm_num) (by norm_num)]
      decide
    rw [hd]
    rfl
  · intro n
    simp [statusLabelE]

end PhytronMCC2
